import Mathlib

/-!
Shallow embedding of the configuration module of the
MR-sequence-inspection repository (src/config/core.py together with the
variable source src/config/cfgvars.py).

Python strings are modelled as lists of characters (`Str`), Python dicts
as insertion-ordered association lists with overwrite-on-update
semantics, the filesystem as a predicate `fs : Str -> Bool` standing for
`os.path.exists`, and the process environment (working directory, the
location of cfgvars.py) as an explicit `World`.  The development fixes
the POSIX path convention (`os.sep = "/"`), the convention of every
concrete path appearing in the repository and its specification.
-/

set_option autoImplicit false

namespace Config

/-- Python `str` modelled as a list of characters. -/
abbrev Str := List Char

/-- `os.sep` on a POSIX host. -/
def sepChar : Char := '/'

/-- Python `s.startswith(pat)` : does `s` begin with the pattern? -/
def hasPre : Str → Str → Bool
  | [], _ => true
  | _ :: _, [] => false
  | p :: ps, c :: cs => p == c && hasPre ps cs

/-- Python `pat in s` (substring containment). -/
def containsSub (pat : Str) : Str → Bool
  | [] => hasPre pat []
  | c :: rest => hasPre pat (c :: rest) || containsSub pat rest

/-- Python `x in xs` for a list of strings. -/
def memStr (k : Str) : List Str → Bool
  | [] => false
  | p :: rest => p == k || memStr k rest

/-- Python `xs.index(k)`: position of the first occurrence of `k`
(meaningful only when `memStr k xs = true`, exactly as `list.index`
is only called under that guard in the source). -/
def listIdx (k : Str) : List Str → Nat
  | [] => 0
  | p :: rest => if p == k then 0 else listIdx k rest + 1

/-- Python `s.split(os.sep)` for the single-character separator. -/
def splitOnSep : Str → List Str
  | [] => [[]]
  | c :: rest =>
    if c = sepChar then [] :: splitOnSep rest
    else
      match splitOnSep rest with
      | [] => [[c]]
      | h :: t => (c :: h) :: t

/-- Python `s.replace(a, b)` for a single-character pattern. -/
def replaceChar (a b : Char) (s : Str) : Str :=
  s.map (fun c => if c == a then b else c)

/-- Helper of `replaceSub`, structurally recursive on a fuel bound. -/
def replaceSubAux (p : Char) (ps rep : Str) : Nat → Str → Str
  | 0, s => s
  | _ + 1, [] => []
  | fuel + 1, c :: rest =>
    if hasPre (p :: ps) (c :: rest) then rep ++ replaceSubAux p ps rep fuel (rest.drop ps.length)
    else c :: replaceSubAux p ps rep fuel rest

/-- Python `s.replace(pat, rep)` for a non-empty pattern `p :: ps`:
leftmost, non-overlapping occurrences are replaced.  The fuel of the
helper is the length of the string: each step consumes at least one
character, so the fuel never runs out. -/
def replaceSub (p : Char) (ps rep : Str) (s : Str) : Str :=
  replaceSubAux p ps rep s.length s

/-- `posixpath.isabs` restricted to its use here: does the path start
with the separator? -/
def startsWithSep : Str → Bool
  | [] => false
  | c :: _ => c == sepChar

/-- Python `s.endswith(os.sep)`. -/
def endsWithSep (s : Str) : Bool :=
  s.getLast? == some sepChar

/-- One step of `posixpath.join`: how `join` incorporates the next
segment `b` into the accumulated `path`. -/
def join2 (path b : Str) : Str :=
  if startsWithSep b then b
  else if path.isEmpty || endsWithSep path then path ++ b
  else path ++ [sepChar] ++ b

/-- `posixpath.join(a, *rest)`. -/
def pathJoin (a : Str) (rest : List Str) : Str :=
  rest.foldl join2 a

/-- `posixpath.normpath` (string algorithm of CPython, POSIX flavour). -/
def normpath (path : Str) : Str :=
  if path = [] then ['.']
  else
    let initialSlashes : Nat :=
      if startsWithSep path then
        if hasPre [sepChar, sepChar] path && !(hasPre [sepChar, sepChar, sepChar] path) then 2
        else 1
      else 0
    let comps := splitOnSep path
    let newComps := comps.foldl (fun acc comp =>
      if comp == [] || comp == ['.'] then acc
      else if !(comp == ['.', '.']) || (initialSlashes == 0 && acc.isEmpty)
              || (!acc.isEmpty && acc.getLast? == some ['.', '.']) then acc ++ [comp]
      else if !acc.isEmpty then acc.dropLast
      else acc) []
    let joined := List.replicate initialSlashes sepChar ++ List.intercalate [sepChar] newComps
    if joined = [] then ['.'] else joined

/-- `os.path.abspath` on POSIX: join onto the working directory when the
path is relative, then normalise. -/
def abspath (cwd path : Str) : Str :=
  if startsWithSep path then normpath path else normpath (join2 cwd path)

/-- `seg.replace("/", os.sep).replace("\\", os.sep)` : the cleaning
applied to every segment by `combine_paths` (line 48). -/
def normalizeSeg (seg : Str) : Str :=
  replaceChar '\\' sepChar (replaceChar '/' sepChar seg)

/-- `combine_paths(*segments)` from src/config/core.py lines 46-49:
every segment has `/` and `\` rewritten to `os.sep`, then the segments
are joined with `os.path.join`.  Python requires at least one segment
(`os.path.join` raises `TypeError` on zero arguments), so the first
segment is explicit. -/
def combine_paths (first : Str) (rest : List Str) : Str :=
  pathJoin (normalizeSeg first) (rest.map normalizeSeg)

/-! ## Data model: Python values, dicts, the variable source -/

/-- A value held in the module namespace of src/config/cfgvars.py.
Imported modules and typing aliases (`Callable`, `Dict`, `os`) are
opaque `module` values; the modality-classification lambdas are actual
boolean predicates on strings; the one float constant is kept as its
literal (it is only ever passed through unchanged). -/
inductive PyValue where
  | str (s : Str)
  | int (n : Int)
  | float (lit : Str)
  | pyList (xs : List PyValue)
  | modDict (entries : List (Str × (Str → Bool)))
  | module (modName : Str)

/-- A Python dict with string keys: insertion-ordered association list,
update overwrites in place. -/
abbrev PyDict := List (Str × PyValue)

/-- `d[k] = v` on a Python dict: overwrite the entry in place when the
key is present, append otherwise. -/
def dictSet {α : Type} (d : List (Str × α)) (k : Str) (v : α) : List (Str × α) :=
  if (d.find? (fun p => p.1 == k)).isSome then
    d.map (fun p => if p.1 == k then (k, v) else p)
  else d ++ [(k, v)]

/-- Python `d.update(e)`. -/
def dictUpdate {α : Type} (d e : List (Str × α)) : List (Str × α) :=
  e.foldl (fun acc kv => dictSet acc kv.1 kv.2) d

/-- Python `d.get(k)` / `k in d` combined: the value bound to `k`. -/
def dictGet {α : Type} (d : List (Str × α)) (k : Str) : Option α :=
  (d.find? (fun p => p.1 == k)).map (fun p => p.2)

/-- `MODALITY_CONDITIONS["T1w"]`. -/
def modT1w : Str → Bool := fun x =>
  containsSub "t1".data x && containsSub "UNI".data x && containsSub "0.75".data x

/-- `MODALITY_CONDITIONS["T2w"]`. -/
def modT2w : Str → Bool := fun x => containsSub "t2".data x

/-- `MODALITY_CONDITIONS["fMRI"]`. -/
def modFMRI : Str → Bool := fun x =>
  containsSub "face".data x && containsSub "ap".data x && !(containsSub "SBRef".data x)

/-- `MODALITY_CONDITIONS["DWI"]`. -/
def modDWI : Str → Bool := fun x => containsSub "resolve_COR".data x

/-- `MODALITY_CONDITIONS["DTI"]`. -/
def modDTI : Str → Bool := fun x => containsSub "dti".data x

/-- `vars(cfgvars)` : the module namespace of src/config/cfgvars.py in
insertion order.  Python also inserts the module dunders (`__name__`,
`__doc__`, `__package__`, `__loader__`, `__spec__`, `__builtins__`,
`__file__`), all of whose names begin with an underscore and none of
which begins with `_REL_`; two representatives are kept.  `cfgFile`
stands for `os.path.abspath(__file__)`, the install location of
cfgvars.py, unknowable statically. -/
def cfgvarsVars (cfgFile : Str) : PyDict := [
  ("__name__".data, PyValue.str "config.cfgvars".data),
  ("__doc__".data, PyValue.str "Configuration Variables Module".data),
  ("Callable".data, PyValue.module "typing.Callable".data),
  ("Dict".data, PyValue.module "typing.Dict".data),
  ("os".data, PyValue.module "os".data),
  ("IDENTIFIER".data, PyValue.str "PROJECT1".data),
  ("_REL_DICOM_ROOT_PATH".data, PyValue.str "this/is/a/path/to/root".data),
  ("_REL_SPECTRO_TEMPLATE".data, PyValue.str "ishere/*/*/MRS-data".data),
  ("_REL_DCM_PATTERN".data,
    PyValue.str "this/is/a/path/to/root/{subject}/SCANS/*/DICOM/*.dcm".data),
  ("NUM_TRS_ONE_FMRI_BLOCK".data, PyValue.int 418),
  ("FMRI_BLOCK_THRESHOLD".data, PyValue.float "0.4".data),
  ("MODALITY_CONDITIONS".data, PyValue.modDict
    [("T1w".data, modT1w), ("T2w".data, modT2w), ("fMRI".data, modFMRI),
     ("DWI".data, modDWI), ("DTI".data, modDTI)]),
  ("DICOMINFO_TSV_NAME".data, PyValue.str "dicominfo_mod.tsv".data),
  ("EXCLUDE_SCAN_IDS".data, PyValue.pyList []),
  ("CONFIG_FILENAME".data, PyValue.str cfgFile)
]

/-- `__import_vars_from_file` from src/config/core.py lines 52-69:
scan the cfgvars namespace; a string value whose name starts with
`_REL_` goes to `rel_paths` under `name.replace("_REL_", "")`; any
other name not starting with `_` goes to `constants` unchanged. -/
def import_vars_from_file (vs : PyDict) : (List (Str × Str)) × PyDict :=
  vs.foldl (fun acc nv =>
    match nv.2 with
    | PyValue.str v =>
      if hasPre "_REL_".data nv.1 then
        (dictSet acc.1 (replaceSub '_' "REL_".data [] nv.1) v, acc.2)
      else if !(hasPre "_".data nv.1) then (acc.1, dictSet acc.2 nv.1 nv.2)
      else acc
    | _ =>
      if !(hasPre "_".data nv.1) then (acc.1, dictSet acc.2 nv.1 nv.2)
      else acc) ([], [])

/-! ## The resolver state machine -/

/-- The process environment the module reads: `os.path.exists`,
`os.getcwd()`, and the install location of cfgvars.py. -/
structure World where
  fs : Str → Bool
  cwd : Str
  cfgFile : Str

/-- The module-level mutable state of src/config/core.py: the `_vars`
table and the `_initialized` flag (field spelt `initialised` here). -/
structure ConfigState where
  vars : PyDict
  initialised : Bool

/-- The exceptions raised by the module (plain `ValueError` in the
source; the specification names them `ConfigurationError`).  The
messages keep the fixed prefix of the source f-strings; the interpolated
path or keyword is elided. -/
inductive PyError where
  | valueError (msg : Str)

/-- Message of the raise in `__set_base_data_dir` (line 81). -/
def msgBaseMissing : Str := "Base data directory does not exist".data

/-- Message of the raise in `__auto_set_base_data_dir` (lines 98-100). -/
def msgKeywordMissing : Str :=
  "Could not auto-initialise data dir: keyword not found in cwd".data

/-- Message of the raise in `initialise_config` (line 134). -/
def msgNoArgs : Str :=
  "Must provide either base_data_dir or keyword to initialise().".data

/-- `__set_base_data_dir` from src/config/core.py lines 75-83: take the
absolute path and require it to exist on disk. -/
def set_base_data_dir (w : World) (path : Str) : Except PyError Str :=
  let base_data_dir := abspath w.cwd path
  if w.fs base_data_dir then Except.ok base_data_dir
  else Except.error (PyError.valueError msgBaseMissing)

/-- `__auto_set_base_data_dir` from src/config/core.py lines 86-104:
split the working directory on `os.sep`, require the keyword to be a
segment, rebuild the path up to and including its first occurrence,
and hand it to `__set_base_data_dir`. -/
def auto_set_base_data_dir (w : World) (keyword : Str) : Except PyError Str :=
  let path_parts := splitOnSep w.cwd
  if memStr keyword path_parts then
    let base_data_dir :=
      List.intercalate [sepChar] (path_parts.take (listIdx keyword path_parts + 1))
    set_base_data_dir w base_data_dir
  else Except.error (PyError.valueError msgKeywordMissing)

/-- Python truthiness of an `Optional[str]` argument:
`None` and `""` are falsy. -/
def optTruthy : Option Str → Bool
  | none => false
  | some s => !s.isEmpty

/-- The string carried by an `Optional[str]` argument. -/
def optVal : Option Str → Str
  | none => []
  | some s => s

/-- Lines 129-134 of `initialise_config`: determine the base directory
from the explicit argument, else from the keyword, else raise. -/
def chooseBase (w : World) (base_data_dir keyword : Option Str) : Except PyError Str :=
  if optTruthy base_data_dir then set_base_data_dir w (optVal base_data_dir)
  else if optTruthy keyword then auto_set_base_data_dir w (optVal keyword)
  else Except.error (PyError.valueError msgNoArgs)

/-- `initialise_config` from src/config/core.py lines 107-151.  When
already initialised and not forced it prints a notice and returns with
the state untouched.  Otherwise the base directory is determined
(exceptions propagate), the variable source is scanned, every relative
fragment is joined onto the base directory with `combine_paths`, and
the table `{"BASE_DATA_DIR": base} |> update(resolved) |> update(constants)`
is published together with the `_initialized = True` flag.  The source
assigns the globals only at lines 144-148, after every raising point,
so an exception leaves the prior state in place: the embedding returns
a new state only on `ok`.  (`verbose` only prints and is elided.) -/
def initialise_config (w : World) (st : ConfigState)
    (base_data_dir keyword : Option Str) (force : Bool) : Except PyError ConfigState :=
  if st.initialised && !force then Except.ok st
  else
    (chooseBase w base_data_dir keyword).bind (fun base_dir =>
      let rc := import_vars_from_file (cfgvarsVars w.cfgFile)
      let resolved_paths := rc.1.foldl
        (fun acc nv => dictSet acc nv.1 (PyValue.str (combine_paths base_dir [nv.2]))) []
      let v := dictUpdate
        (dictUpdate [("BASE_DATA_DIR".data, PyValue.str base_dir)] resolved_paths) rc.2
      Except.ok { vars := v, initialised := true })

/-- The module state after a call to `initialise_config`: on success the
published state, on an exception the prior state (the source mutates
`_vars` and `_initialized` only after every raising point). -/
def initialise_config_state (w : World) (st : ConfigState)
    (base_data_dir keyword : Option Str) (force : Bool) : ConfigState :=
  match initialise_config w st base_data_dir keyword force with
  | Except.ok s => s
  | Except.error _ => st

/-- Does an `Except` computation raise? -/
def isErr {ε α : Type} : Except ε α → Bool
  | Except.error _ => true
  | Except.ok _ => false

/-! ## Inspection utilities -/

/-- A character of the conservative path class of `verify_paths`:
the regex `[\w\s\-./\\]` (ASCII reading of `\w` and `\s`). -/
def pathChar (c : Char) : Bool :=
  c.isAlphanum || c == '_' || c.isWhitespace || c == '-' || c == '.' || c == '/' || c == '\\'

/-- `re.match(r_pattern, s)` for the pattern `[\w\s\-./\\]+$` used by
`verify_paths`: the string is non-empty and made only of path-class
characters. -/
def matchesPathClass (s : Str) : Bool :=
  !s.isEmpty && s.all pathChar

/-- The dict `pths` built inside `verify_paths` (src/config/core.py
lines 215-224): for every string-valued table entry containing `/` or
`\` and matching the conservative path class, record whether the value
exists on disk. -/
def verify_paths_pths (st : ConfigState) (fs : Str → Bool) : List (Str × Bool) :=
  st.vars.foldl (fun pths nv =>
    match nv.2 with
    | PyValue.str v =>
      if containsSub "/".data v || containsSub "\\".data v then
        if matchesPathClass v then dictSet pths nv.1 (fs v) else pths
      else pths
    | _ => pths) []

/-- `verify_paths` from src/config/core.py lines 208-232 as implemented:
it computes `pths` and prints it, but the function body has no `return`
statement, so despite its annotation `-> Dict[str, bool]` the call
always evaluates to Python `None`. -/
def verify_paths (st : ConfigState) (fs : Str → Bool) : Option (List (Str × Bool)) :=
  let _pths := verify_paths_pths st fs
  none

/-- Errors of the accessor described by the specification. -/
inductive GetError where
  | notInitialisedError
  | notFoundError

/-- Modelled from the spec: src/ contains no `get` accessor (consumers
read module attributes injected by `globals().update`); the operation
`get(name)` exists only in the specification.  Following its words:
fail with `NotInitializedError` before initialisation, with
`NotFoundError` when the name is absent from the published table, and
return the resolved value otherwise. -/
def get (st : ConfigState) (name : Str) : Except GetError PyValue :=
  if !st.initialised then Except.error GetError.notInitialisedError
  else
    match dictGet st.vars name with
    | some v => Except.ok v
    | none => Except.error GetError.notFoundError

/-! ## The table described by the specification (claim C1) -/

/-- A name with the `_REL_` prefix removed (the wording of claim C1). -/
def stripRelPre (name : Str) : Str :=
  name.drop ("_REL_".data).length

/-- Stated from the words of claim C1 and spec section 4.2 step 4: the
table `{"BASE_DATA_DIR": base}` followed by, for every string-valued
`_REL_*` entry of the variable source, its name with the `_REL_` prefix
removed bound to the base directory joined with the fragment, followed
by every non-underscore-prefixed constant of the variable source bound
to its value unchanged. -/
def specTable (cfgFile base : Str) : PyDict :=
  ("BASE_DATA_DIR".data, PyValue.str base) ::
  (((cfgvarsVars cfgFile).filterMap (fun nv =>
      match nv.2 with
      | PyValue.str v =>
        if hasPre "_REL_".data nv.1 then
          some (stripRelPre nv.1, PyValue.str (combine_paths base [v]))
        else none
      | _ => none))
   ++ (cfgvarsVars cfgFile).filter (fun nv => !(hasPre "_".data nv.1)))

/-! ## Auxiliary facts about the dict operations

`dictSet`/`dictUpdate` append when the key is fresh; the freshness side
conditions are closed boolean facts about the (concrete) key sets of
the variable source, so they can be decided. -/

/-- The key list of a dict. -/
def keys {α : Type} (d : List (Str × α)) : List Str :=
  d.map Prod.fst

/-- No string occurs twice in the list. -/
def nodupKeys : List Str → Bool
  | [] => true
  | x :: xs => !memStr x xs && nodupKeys xs

/-! ## The published table, computed in stages -/

/-- The `rel_paths` dict returned by `__import_vars_from_file` on the
actual variable source. -/
def relsExpected : List (Str × Str) :=
  [("DICOM_ROOT_PATH".data, "this/is/a/path/to/root".data),
   ("SPECTRO_TEMPLATE".data, "ishere/*/*/MRS-data".data),
   ("DCM_PATTERN".data, "this/is/a/path/to/root/{subject}/SCANS/*/DICOM/*.dcm".data)]

/-- The `constants` dict returned by `__import_vars_from_file` on the
actual variable source. -/
def constsExpected (cfgFile : Str) : PyDict :=
  [("Callable".data, PyValue.module "typing.Callable".data),
   ("Dict".data, PyValue.module "typing.Dict".data),
   ("os".data, PyValue.module "os".data),
   ("IDENTIFIER".data, PyValue.str "PROJECT1".data),
   ("NUM_TRS_ONE_FMRI_BLOCK".data, PyValue.int 418),
   ("FMRI_BLOCK_THRESHOLD".data, PyValue.float "0.4".data),
   ("MODALITY_CONDITIONS".data, PyValue.modDict
     [("T1w".data, modT1w), ("T2w".data, modT2w), ("fMRI".data, modFMRI),
      ("DWI".data, modDWI), ("DTI".data, modDTI)]),
   ("DICOMINFO_TSV_NAME".data, PyValue.str "dicominfo_mod.tsv".data),
   ("EXCLUDE_SCAN_IDS".data, PyValue.pyList []),
   ("CONFIG_FILENAME".data, PyValue.str cfgFile)]

/-- The `resolved_paths` dict of `initialise_config`. -/
def resolvedExpected (base : Str) : PyDict :=
  [("DICOM_ROOT_PATH".data, PyValue.str (combine_paths base ["this/is/a/path/to/root".data])),
   ("SPECTRO_TEMPLATE".data, PyValue.str (combine_paths base ["ishere/*/*/MRS-data".data])),
   ("DCM_PATTERN".data,
     PyValue.str (combine_paths base ["this/is/a/path/to/root/{subject}/SCANS/*/DICOM/*.dcm".data]))]

/-! ## Concrete fixtures used by the witnesses -/

/-- A world whose filesystem holds exactly `/mnt/data`, with working
directory `/mnt/lab/myproject1/analysis`. -/
def exWorld : World :=
  { fs := fun p => p == "/mnt/data".data,
    cwd := "/mnt/lab/myproject1/analysis".data,
    cfgFile := "/mnt/data/config/cfgvars.py".data }

/-- A world for the auto-detect example: the working directory
`/mnt/lab/myproject1/analysis` and the project root `/mnt/lab/myproject1`
exist on disk. -/
def exW3 : World :=
  { fs := fun p => p == "/mnt/lab/myproject1".data || p == "/mnt/lab/myproject1/analysis".data,
    cwd := "/mnt/lab/myproject1/analysis".data,
    cfgFile := "/mnt/lab/myproject1/config/cfgvars.py".data }

/-- A world for the error-case analysis: the working directory
`/mnt/lab/proj/analysis` and all its ancestors exist on disk. -/
def exW5 : World :=
  { fs := fun p => p == "/mnt/lab/proj/analysis".data || p == "/mnt".data
      || p == "/mnt/lab".data || p == "/mnt/lab/proj".data,
    cwd := "/mnt/lab/proj/analysis".data,
    cfgFile := "/mnt/lab/proj/config/cfgvars.py".data }

/-- A world whose filesystem is empty. -/
def noFsWorld : World :=
  { fs := fun _ => false,
    cwd := "/home/user".data,
    cfgFile := "/home/user/cfgvars.py".data }

/-- An already-initialised state with a one-entry table. -/
def exInitState : ConfigState :=
  { vars := [("BASE_DATA_DIR".data, PyValue.str "/mnt/data".data)], initialised := true }

/-- An initialised state holding a glob-valued entry, a plain path
entry, and a non-path constant. -/
def exSt8 : ConfigState :=
  { vars := [("BASE_DATA_DIR".data, PyValue.str "/data".data),
             ("SPECTRO_TEMPLATE".data, PyValue.str "/data/*/MRS-data".data),
             ("SUBJ_MRS".data, PyValue.str "/data/subj01/MRS-data".data),
             ("IDENTIFIER".data, PyValue.str "PROJECT1".data)],
    initialised := true }

/-- The filesystem paired with `exSt8`: `/data` and
`/data/subj01/MRS-data` exist, nothing else does. -/
def fs8 : Str → Bool := fun p =>
  p == "/data/subj01/MRS-data".data || p == "/data".data

theorem memStr_append (k : Str) (l1 l2 : List Str) :
    memStr k (l1 ++ l2) = (memStr k l1 || memStr k l2) := by
  induction l1 with
  | nil => simp [memStr]
  | cons x l1 ih => simp [memStr, ih, Bool.or_assoc]

theorem find?_isSome_eq_memStr {α : Type} (d : List (Str × α)) (k : Str) :
    (d.find? (fun p => p.1 == k)).isSome = memStr k (keys d) := by
  induction d with
  | nil => rfl
  | cons p d ih =>
    cases h : p.1 == k <;> simp [List.find?, keys, memStr, h, ih]

theorem dictSet_fresh {α : Type} (d : List (Str × α)) (k : Str) (v : α)
    (h : memStr k (keys d) = false) : dictSet d k v = d ++ [(k, v)] := by
  rw [dictSet, find?_isSome_eq_memStr, h]
  simp

theorem nodupKeys_split (l1 l2 : List Str) (a : Str)
    (h : nodupKeys (l1 ++ a :: l2) = true) : memStr a l1 = false := by
  induction l1 with
  | nil => rfl
  | cons x l1 ih =>
    simp only [List.cons_append, nodupKeys, Bool.and_eq_true, Bool.not_eq_true'] at h
    have hx : (x == a) = false := by
      rcases h with ⟨hmem, _⟩
      rw [List.append_eq, memStr_append] at hmem
      simp only [memStr, Bool.or_eq_false_iff] at hmem
      rcases hmem with ⟨_, hax, _⟩
      rw [beq_eq_false_iff_ne] at hax ⊢
      exact fun hxa => hax hxa.symm
    simp only [memStr, hx, Bool.false_or]
    exact ih h.2

theorem dictUpdate_fresh {α : Type} :
    ∀ (e d : List (Str × α)), nodupKeys (keys d ++ keys e) = true →
      dictUpdate d e = d ++ e := by
  intro e
  induction e with
  | nil => intro d _; simp [dictUpdate]
  | cons q e ih =>
    intro d h
    have hfresh : memStr q.1 (keys d) = false := by
      exact nodupKeys_split (keys d) (keys e) q.1 (by simpa [keys] using h)
    have hstep : dictSet d q.1 q.2 = d ++ [q] := by
      simpa using dictSet_fresh d q.1 q.2 hfresh
    have h' : nodupKeys (keys (d ++ [q]) ++ keys e) = true := by
      simp only [keys, List.map_append, List.map_cons, List.map_nil, List.append_assoc,
        List.singleton_append]
      simpa [keys] using h
    calc dictUpdate d (q :: e)
        = dictUpdate (dictSet d q.1 q.2) e := rfl
      _ = dictUpdate (d ++ [q]) e := by rw [hstep]
      _ = (d ++ [q]) ++ e := ih (d ++ [q]) h'
      _ = d ++ q :: e := by simp

theorem import_vars_eq (cfgFile : Str) :
    import_vars_from_file (cfgvarsVars cfgFile) = (relsExpected, constsExpected cfgFile) := by
  rfl

theorem resolved_builds (base : Str) :
    relsExpected.foldl (fun acc nv => dictSet acc nv.1 (PyValue.str (combine_paths base [nv.2]))) []
    = resolvedExpected base := by
  rfl

theorem table_builds (cfgFile base : Str) :
    dictUpdate (dictUpdate [("BASE_DATA_DIR".data, PyValue.str base)]
      ((import_vars_from_file (cfgvarsVars cfgFile)).1.foldl
        (fun acc nv => dictSet acc nv.1 (PyValue.str (combine_paths base [nv.2]))) []))
      (import_vars_from_file (cfgvarsVars cfgFile)).2
    = specTable cfgFile base := by
  have h1 : (import_vars_from_file (cfgvarsVars cfgFile)).1 = relsExpected := by
    rw [import_vars_eq]
  have h2 : (import_vars_from_file (cfgvarsVars cfgFile)).2 = constsExpected cfgFile := by
    rw [import_vars_eq]
  rw [h1, h2, resolved_builds]
  have hu1 : dictUpdate [("BASE_DATA_DIR".data, PyValue.str base)] (resolvedExpected base)
      = ("BASE_DATA_DIR".data, PyValue.str base) :: resolvedExpected base := by
    rw [dictUpdate_fresh]
    · rfl
    · simp only [keys, resolvedExpected, List.map_cons, List.map_nil, List.map_append]
      decide
  rw [hu1]
  have hu2 : dictUpdate (("BASE_DATA_DIR".data, PyValue.str base) :: resolvedExpected base)
      (constsExpected cfgFile)
      = (("BASE_DATA_DIR".data, PyValue.str base) :: resolvedExpected base)
        ++ constsExpected cfgFile := by
    rw [dictUpdate_fresh]
    simp only [keys, resolvedExpected, constsExpected, List.map_cons, List.map_nil]
    decide
  rw [hu2]
  rfl

/-- When the call actually initialises (not an already-initialised
no-op) and the base directory resolves to `base`, the call publishes
exactly the specification table and sets the flag. -/
theorem initialise_config_ok (w : World) (st : ConfigState) (b k : Option Str)
    (force : Bool) (base : Str)
    (hno : (st.initialised && !force) = false)
    (hbase : chooseBase w b k = Except.ok base) :
    initialise_config w st b k force
      = Except.ok { vars := specTable w.cfgFile base, initialised := true } := by
  unfold initialise_config
  rw [hno]
  simp only [Bool.false_eq_true, if_false]
  rw [hbase]
  simp only [Except.bind]
  rw [table_builds]

/-- C1: after a successful, actually-initialising call to
`initialise_config` that resolved the base directory to `base`, the
published table equals the map holding `BASE_DATA_DIR` bound to `base`,
then every string-valued `_REL_*` entry of the variable source under
its name with the `_REL_` prefix removed, bound to `base` joined with
the fragment, then every non-underscore-prefixed constant of the
variable source bound to its value unchanged — and the initialised
flag is set. -/
theorem spec_c1 (w : World) (st : ConfigState) (b k : Option Str) (force : Bool)
    (base : Str) (st' : ConfigState)
    (hno : (st.initialised && !force) = false)
    (hbase : chooseBase w b k = Except.ok base)
    (hrun : initialise_config w st b k force = Except.ok st') :
    st'.vars = specTable w.cfgFile base ∧ st'.initialised = true := by
  rw [initialise_config_ok w st b k force base hno hbase] at hrun
  injection hrun with h
  rw [← h]
  exact ⟨rfl, rfl⟩

/-- C1 witness: a fresh state initialised with the explicit base
directory `/mnt/data` publishes exactly the specification table. -/
theorem spec_c1_witness :
    ((ConfigState.mk [] false).initialised && !false) = false
    ∧ chooseBase exWorld (some "/mnt/data".data) none = Except.ok "/mnt/data".data
    ∧ (initialise_config_state exWorld (ConfigState.mk [] false)
        (some "/mnt/data".data) none false).vars
        = specTable exWorld.cfgFile "/mnt/data".data :=
  ⟨rfl, rfl,
    (spec_c1 exWorld (ConfigState.mk [] false) (some "/mnt/data".data) none false
      "/mnt/data".data
      (initialise_config_state exWorld (ConfigState.mk [] false)
        (some "/mnt/data".data) none false)
      rfl rfl rfl).1⟩

/-- C2: on an already-initialised state, a call with `force = false`
returns without raising and leaves the published table and the
initialised flag exactly unchanged, whatever the other arguments. -/
theorem spec_c2 (w : World) (st : ConfigState) (b k : Option Str)
    (h : st.initialised = true) :
    initialise_config w st b k false = Except.ok st := by
  unfold initialise_config
  rw [h]
  rfl

/-- C2 witness: re-initialising `exInitState` with the same explicit
base directory is a no-op. -/
theorem spec_c2_witness :
    initialise_config exWorld exInitState (some "/mnt/data".data) none false
      = Except.ok exInitState :=
  spec_c2 exWorld exInitState (some "/mnt/data".data) none rfl

/-- C10: with a non-empty explicit base directory, the keyword argument
is never consulted: the call is equal, as a function of the prior state
and the world, to the call with the keyword omitted. -/
theorem spec_c10 (w : World) (st : ConfigState) (b : Str) (k : Option Str) (force : Bool)
    (hb : b.isEmpty = false) :
    initialise_config w st (some b) k force = initialise_config w st (some b) none force := by
  have ht : optTruthy (some b) = true := by simp [optTruthy, hb]
  simp only [initialise_config, chooseBase, ht, if_true]

/-- C10 witness: in `exWorld` the keyword `myproject1` occurs in the
working directory but its auto-detected root `/mnt/lab/myproject1` does
not exist on disk, while the explicit base `/mnt/data` does; the call
giving both behaves exactly as the call with the base alone. -/
theorem spec_c10_witness :
    initialise_config exWorld (ConfigState.mk [] false) (some "/mnt/data".data)
      (some "myproject1".data) false
    = initialise_config exWorld (ConfigState.mk [] false) (some "/mnt/data".data) none false :=
  spec_c10 exWorld (ConfigState.mk [] false) "/mnt/data".data (some "myproject1".data) false rfl

/-- C6 counterexample: on an already-initialised prior state and
`force = false`, a call whose explicit base directory does not exist on
disk raises nothing — it returns the prior state untouched — so the
claim "for every prior state the call raises a ConfigurationError" is
false on the code. -/
theorem spec_c6_cex :
    noFsWorld.fs (abspath noFsWorld.cwd "/definitely/not/a/real/path".data) = false
    ∧ initialise_config noFsWorld exInitState
        (some "/definitely/not/a/real/path".data) none false = Except.ok exInitState :=
  ⟨rfl, rfl⟩

/-- C6 amended: when the call actually attempts initialisation (the
prior state is uninitialised or `force = true`), a non-empty explicit
base directory that does not exist on disk makes `initialise_config`
raise the missing-directory `ConfigurationError`, and the module state
is left exactly as it was. -/
theorem spec_c6 (w : World) (st : ConfigState) (b : Str) (k : Option Str) (force : Bool)
    (hb : b.isEmpty = false)
    (hno : (st.initialised && !force) = false)
    (hfs : w.fs (abspath w.cwd b) = false) :
    initialise_config w st (some b) k force = Except.error (PyError.valueError msgBaseMissing)
    ∧ initialise_config_state w st (some b) k force = st := by
  have herr : initialise_config w st (some b) k force
      = Except.error (PyError.valueError msgBaseMissing) := by
    unfold initialise_config chooseBase set_base_data_dir
    rw [hno]
    simp only [Bool.false_eq_true, if_false]
    simp [optTruthy, optVal, hb, hfs, Except.bind]
  exact ⟨herr, by simp [initialise_config_state, herr]⟩

/-- C6 witness: from a fresh state, a nonexistent base directory is
rejected with the missing-directory error and the state is unchanged. -/
theorem spec_c6_witness :
    initialise_config noFsWorld (ConfigState.mk [] false)
      (some "/definitely/not/a/real/path".data) none false
      = Except.error (PyError.valueError msgBaseMissing)
    ∧ initialise_config_state noFsWorld (ConfigState.mk [] false)
        (some "/definitely/not/a/real/path".data) none false = ConfigState.mk [] false :=
  spec_c6 noFsWorld (ConfigState.mk [] false) "/definitely/not/a/real/path".data none false
    rfl rfl rfl

theorem hasPre_append (s t : Str) : hasPre s (s ++ t) = true := by
  induction s with
  | nil => rfl
  | cons c s ih => simp [hasPre, ih]

theorem startsWithSep_append (s t : Str) (h : startsWithSep s = true) :
    startsWithSep (s ++ t) = true := by
  cases s with
  | nil => simp [startsWithSep] at h
  | cons c s => simpa [startsWithSep] using h

/-- C4 counterexample: a `RelativePath` fragment that is itself absolute
makes `os.path.join` discard the base directory, so the resolved value
(`/etc` here) does not start with the resolved base directory
(`/mnt/data` here), refuting the claim for such fragments. -/
theorem spec_c4_cex :
    combine_paths "/mnt/data".data ["/etc".data] = "/etc".data
    ∧ hasPre "/mnt/data".data (combine_paths "/mnt/data".data ["/etc".data]) = false :=
  ⟨rfl, rfl⟩

/-- C4 amended: for a base directory that is absolute and free of
backslashes (every base published by the module is, on a POSIX host
with a backslash-free working directory) and a fragment that is still
relative after separator normalisation — every fragment of the actual
variable source is — the resolved value is an absolute path that starts
with the resolved base directory. -/
theorem spec_c4 (base frag : Str)
    (hb : startsWithSep base = true)
    (hnb : normalizeSeg base = base)
    (hf : startsWithSep (normalizeSeg frag) = false) :
    startsWithSep (combine_paths base [frag]) = true
    ∧ hasPre base (combine_paths base [frag]) = true := by
  have hjoin : combine_paths base [frag] = join2 base (normalizeSeg frag) := by
    unfold combine_paths pathJoin
    rw [List.map_cons, List.map_nil, List.foldl_cons, List.foldl_nil, hnb]
  rw [hjoin]
  unfold join2
  rw [hf]
  simp only [Bool.false_eq_true, if_false]
  by_cases h2 : (base.isEmpty || endsWithSep base) = true
  · rw [if_pos h2]
    exact ⟨startsWithSep_append base _ hb, hasPre_append base _⟩
  · rw [if_neg h2]
    constructor
    · rw [List.append_assoc]
      exact startsWithSep_append base _ hb
    · rw [List.append_assoc]
      exact hasPre_append base _

/-- C4 witness: the actual first fragment of the variable source,
resolved against `/mnt/data`, is absolute and extends the base. -/
theorem spec_c4_witness :
    startsWithSep (combine_paths "/mnt/data".data ["this/is/a/path/to/root".data]) = true
    ∧ hasPre "/mnt/data".data
        (combine_paths "/mnt/data".data ["this/is/a/path/to/root".data]) = true :=
  spec_c4 "/mnt/data".data "this/is/a/path/to/root".data rfl rfl rfl

theorem backslash_not_mem_replaceChar (s : Str) :
    ('\\' ∈ s.map (fun c => if c == '\\' then sepChar else c)) → False := by
  intro h
  rcases List.mem_map.mp h with ⟨c, _, hc⟩
  by_cases hb : (c == '\\') = true
  · rw [if_pos hb] at hc
    exact absurd hc (by decide)
  · rw [if_neg hb] at hc
    exact hb (by simp [hc])

theorem backslash_not_mem_normalizeSeg (s : Str) : ('\\' ∈ normalizeSeg s) → False := by
  unfold normalizeSeg replaceChar
  exact backslash_not_mem_replaceChar _

theorem backslash_not_mem_join2 (a b : Str)
    (ha : ('\\' ∈ a) → False) (hb : ('\\' ∈ b) → False) :
    ('\\' ∈ join2 a b) → False := by
  unfold join2
  by_cases h1 : startsWithSep b = true
  · rw [if_pos h1]; exact hb
  · rw [if_neg h1]
    by_cases h2 : (a.isEmpty || endsWithSep a) = true
    · rw [if_pos h2]
      intro h
      rcases List.mem_append.mp h with h | h
      · exact ha h
      · exact hb h
    · rw [if_neg h2]
      intro h
      rcases List.mem_append.mp h with h | h
      · rcases List.mem_append.mp h with h | h
        · exact ha h
        · simp [sepChar] at h
      · exact hb h

theorem backslash_not_mem_pathJoin (rest : List Str) :
    ∀ (a : Str), (('\\' ∈ a) → False) → (∀ x ∈ rest, ('\\' ∈ x) → False) →
      ('\\' ∈ pathJoin a rest) → False := by
  induction rest with
  | nil => intro a ha _ h; exact ha h
  | cons b rest ih =>
    intro a ha hrest h
    refine ih (join2 a b) ?_ (fun x hx => hrest x (List.mem_cons_of_mem b hx)) h
    exact backslash_not_mem_join2 a b ha (hrest b (List.mem_cons_self b rest))

/-- C7: `combine_paths` first rewrites `/` and `\` in every segment to
the host separator and then joins; on the POSIX host no output
character is a foreign (backslash) separator, whatever the segments. -/
theorem spec_c7 (first : Str) (rest : List Str) :
    (combine_paths first rest).all (fun c => !(c == '\\')) = true := by
  rw [List.all_eq_true]
  intro c hc
  simp only [Bool.not_eq_eq_eq_not, Bool.not_true, beq_eq_false_iff_ne]
  intro hback
  subst hback
  refine backslash_not_mem_pathJoin (rest.map normalizeSeg) (normalizeSeg first)
    (backslash_not_mem_normalizeSeg first) ?_ hc
  intro x hx
  rcases List.mem_map.mp hx with ⟨seg, _, hseg⟩
  rw [← hseg]
  exact backslash_not_mem_normalizeSeg seg

theorem listIdx_getElem (k : Str) :
    ∀ (l : List Str), memStr k l = true → l[listIdx k l]? = some k := by
  intro l
  induction l with
  | nil => intro h; simp [memStr] at h
  | cons p rest ih =>
    intro h
    by_cases hp : (p == k) = true
    · simp [listIdx, hp, beq_iff_eq.mp hp]
    · have hm : memStr k rest = true := by
        simpa [memStr, hp] using h
      simp [listIdx, hp, ih hm]

theorem listIdx_min (k : Str) :
    ∀ (l : List Str) (j : Nat), j < listIdx k l → l[j]? ≠ some k := by
  intro l
  induction l with
  | nil => intro j hj; simp [listIdx] at hj
  | cons p rest ih =>
    intro j hj
    by_cases hp : (p == k) = true
    · simp [listIdx, hp] at hj
    · cases j with
      | zero =>
        simp only [List.getElem?_cons_zero, ne_eq, Option.some.injEq]
        intro hpk
        exact hp (by simp [hpk])
      | succ j =>
        rw [listIdx, if_neg hp] at hj
        simpa using ih j (Nat.lt_of_succ_lt_succ hj)

theorem listIdx_lt (k : Str) :
    ∀ (l : List Str), memStr k l = true → listIdx k l < l.length := by
  intro l
  induction l with
  | nil => intro h; simp [memStr] at h
  | cons p rest ih =>
    intro h
    by_cases hp : (p == k) = true
    · simp [listIdx, hp]
    · have hm : memStr k rest = true := by
        simpa [memStr, hp] using h
      rw [listIdx, if_neg hp]
      simpa [Nat.succ_lt_succ_iff] using ih hm

/-- C3: in auto-detect mode `initialise_config` splits the working
directory into segments on the separator; when the keyword is absent
from the segments it fails with the keyword `ConfigurationError`; when
present, the segment selected is the first (leftmost) one equal to the
keyword, and the base directory becomes the path rebuilt up to and
including that segment (assuming, as for any real process, that this
ancestor of the working directory exists and is already normalised). -/
theorem spec_c3 (w : World) (kw : Str)
    (habs : abspath w.cwd (List.intercalate [sepChar]
        ((splitOnSep w.cwd).take (listIdx kw (splitOnSep w.cwd) + 1)))
      = List.intercalate [sepChar] ((splitOnSep w.cwd).take (listIdx kw (splitOnSep w.cwd) + 1)))
    (hfs : w.fs (List.intercalate [sepChar]
        ((splitOnSep w.cwd).take (listIdx kw (splitOnSep w.cwd) + 1))) = true) :
    (memStr kw (splitOnSep w.cwd) = false →
      auto_set_base_data_dir w kw = Except.error (PyError.valueError msgKeywordMissing))
    ∧ (memStr kw (splitOnSep w.cwd) = true →
      (splitOnSep w.cwd)[listIdx kw (splitOnSep w.cwd)]? = some kw
      ∧ (∀ j, j < listIdx kw (splitOnSep w.cwd) → (splitOnSep w.cwd)[j]? ≠ some kw)
      ∧ auto_set_base_data_dir w kw
        = Except.ok (List.intercalate [sepChar]
            ((splitOnSep w.cwd).take (listIdx kw (splitOnSep w.cwd) + 1)))) := by
  constructor
  · intro hm
    unfold auto_set_base_data_dir
    simp only [hm, Bool.false_eq_true, if_false]
  · intro hm
    refine ⟨listIdx_getElem kw (splitOnSep w.cwd) hm,
      fun j hj => listIdx_min kw (splitOnSep w.cwd) j hj, ?_⟩
    unfold auto_set_base_data_dir set_base_data_dir
    simp only [hm, eq_self_iff_true, if_true, habs, hfs]

/-- C3 witness: with working directory `/mnt/lab/myproject1/analysis`,
the keyword `myproject1` resolves the base directory to
`/mnt/lab/myproject1`, and an absent keyword fails. -/
theorem spec_c3_witness :
    auto_set_base_data_dir exW3 "myproject1".data = Except.ok "/mnt/lab/myproject1".data
    ∧ auto_set_base_data_dir exW3 "nope".data
      = Except.error (PyError.valueError msgKeywordMissing) :=
  ⟨((spec_c3 exW3 "myproject1".data rfl rfl).2 (by decide)).2.2,
   (spec_c3 exW3 "nope".data rfl rfl).1 (by decide)⟩

/-- C5: when the call actually attempts initialisation, and the
filesystem contains every (normalised) ancestor of the working
directory — as any real filesystem does while the process is running —
`initialise_config` raises exactly in three cases: a truthy explicit
base directory that does not exist on disk, a truthy keyword (with no
truthy base directory) that is not a segment of the working directory,
or neither argument truthy; in every other case it succeeds. -/
theorem spec_c5 (w : World) (st : ConfigState) (b k : Option Str) (force : Bool)
    (hno : (st.initialised && !force) = false)
    (hanc : ∀ j, j < (splitOnSep w.cwd).length →
      w.fs (abspath w.cwd
        (List.intercalate [sepChar] ((splitOnSep w.cwd).take (j + 1)))) = true) :
    isErr (initialise_config w st b k force) = true ↔
      ((optTruthy b = true ∧ w.fs (abspath w.cwd (optVal b)) = false)
       ∨ (optTruthy b = false ∧ optTruthy k = true
          ∧ memStr (optVal k) (splitOnSep w.cwd) = false)
       ∨ (optTruthy b = false ∧ optTruthy k = false)) := by
  unfold initialise_config chooseBase
  rw [hno]
  simp only [Bool.false_eq_true, if_false]
  cases hb : optTruthy b
  · cases hk : optTruthy k
    · simp [hb, hk, isErr, Except.bind]
    · unfold auto_set_base_data_dir set_base_data_dir
      cases hmem : memStr (optVal k) (splitOnSep w.cwd)
      · simp [hb, hk, hmem, isErr, Except.bind]
      · have hlt := listIdx_lt (optVal k) (splitOnSep w.cwd) hmem
        have hfs := hanc (listIdx (optVal k) (splitOnSep w.cwd)) hlt
        simp [hb, hk, hmem, hfs, isErr, Except.bind]
  · unfold set_base_data_dir
    cases hfs : w.fs (abspath w.cwd (optVal b))
    · simp [hb, hfs, isErr, Except.bind]
    · simp [hb, hfs, isErr, Except.bind]

/-- C5 witness: the trichotomy instantiated in a world whose filesystem
holds the working directory `/mnt/lab/proj/analysis` and all its
ancestors, for the keyword `proj`. -/
theorem spec_c5_witness :
    isErr (initialise_config exW5 (ConfigState.mk [] false) none (some "proj".data) false) = true
      ↔ ((optTruthy none = true ∧ exW5.fs (abspath exW5.cwd (optVal none)) = false)
         ∨ (optTruthy none = false ∧ optTruthy (some "proj".data) = true
            ∧ memStr (optVal (some "proj".data)) (splitOnSep exW5.cwd) = false)
         ∨ (optTruthy none = false ∧ optTruthy (some "proj".data) = false)) :=
  spec_c5 exW5 (ConfigState.mk [] false) none (some "proj".data) false rfl (by decide)

/-- C9: the accessor `get` (modelled from the spec, no such accessor
exists in src/) fails with `NotInitializedError` for every name before
initialisation, fails with `NotFoundError` after initialisation when
the name is absent from the published table, and returns the bound
resolved value otherwise. -/
theorem spec_c9 (st : ConfigState) (name : Str) :
    (st.initialised = false → get st name = Except.error GetError.notInitialisedError)
    ∧ (∀ v, st.initialised = true → dictGet st.vars name = some v →
        get st name = Except.ok v)
    ∧ (st.initialised = true → dictGet st.vars name = none →
        get st name = Except.error GetError.notFoundError) := by
  refine ⟨fun h => ?_, fun v h hv => ?_, fun h hn => ?_⟩
  · simp [get, h]
  · simp [get, h, hv]
  · simp [get, h, hn]

/-- C9 witness: the three accessor behaviours on concrete states. -/
theorem spec_c9_witness :
    get (ConfigState.mk [] false) "BASE_DATA_DIR".data
      = Except.error GetError.notInitialisedError
    ∧ get exInitState "BASE_DATA_DIR".data = Except.ok (PyValue.str "/mnt/data".data)
    ∧ get exInitState "MISSING_NAME".data = Except.error GetError.notFoundError :=
  ⟨(spec_c9 (ConfigState.mk [] false) "BASE_DATA_DIR".data).1 rfl,
   (spec_c9 exInitState "BASE_DATA_DIR".data).2.1 (PyValue.str "/mnt/data".data) rfl rfl,
   (spec_c9 exInitState "MISSING_NAME".data).2.2 rfl rfl⟩

/-- C8: on the initialised state `exSt8`, the internal report of
`verify_paths` skips the glob-valued entry `/data/*/MRS-data` and the
non-path constant while reporting `/data/subj01/MRS-data` according to
actual existence — but the function itself returns Python `None` (it
has no return statement), contradicting its own annotation
`-> Dict[str, bool]` and the claim that it returns the mapping. -/
theorem spec_c8 :
    verify_paths exSt8 fs8 = none
    ∧ dictGet (verify_paths_pths exSt8 fs8) "SPECTRO_TEMPLATE".data = none
    ∧ dictGet (verify_paths_pths exSt8 fs8) "SUBJ_MRS".data = some true
    ∧ dictGet (verify_paths_pths exSt8 fs8) "IDENTIFIER".data = none
    ∧ dictGet (verify_paths_pths exSt8 fs8) "BASE_DATA_DIR".data = some true :=
  ⟨rfl, rfl, rfl, rfl, rfl⟩

end Config
